import Mathlib

/-!
Shallow embedding of `src/query_expansion.py` (repository QueryExpansion).

The script wraps a remote Hugging Face text-generation endpoint:
`QueryExpander.expand_query` formats a two-message conversation, invokes the
endpoint, indexes into the raw response (`result['choices'][0]['text']`) and
returns the extracted value wrapped in a one-element list; any exception in
that block is caught, an error line is printed, and `[]` is returned.
`main` runs an interactive CLI loop reading lines until a case-insensitive
`quit`, with a top-level catch-all handler.

The endpoint client is external, so its behavior is a parameter
`invoke : List ChatMessage → Except String PyVal` (an exception is modelled
as `Except.error` carrying the exception text).  Printing is modelled by
returning the list of printed strings.  Instance state is threaded
explicitly so that (absence of) mutation is provable.
-/

set_option maxHeartbeats 1000000

namespace QueryExpansion

/-- A Python runtime value, as far as the extraction logic can observe it:
strings, numbers, lists, dicts with string keys, and None. -/
inductive PyVal where
  | str (s : String)
  | num (n : Int)
  | list (xs : List PyVal)
  | dict (entries : List (String × PyVal))
  | none

/-- Python subscription `v[key]` with a string key.  On a dict it is a key
lookup (KeyError when absent); on every other value it raises a TypeError,
exactly as `result['choices']` / `...['text']` would in the source. -/
def pySubscriptKey : PyVal → String → Except String PyVal
  | .dict es, key =>
    match es.lookup key with
    | some v => .ok v
    | Option.none => .error ("KeyError: " ++ key)
  | .list _, _ => .error "TypeError: list indices must be integers or slices, not str"
  | .str _, _ => .error "TypeError: string indices must be integers"
  | .num _, _ => .error "TypeError: int object is not subscriptable"
  | .none, _ => .error "TypeError: NoneType object is not subscriptable"

/-- Python subscription `v[i]` with a non-negative integer index, as used by
`result['choices'][0]`: list indexing (IndexError out of range), string
indexing (one-character string), KeyError on a string-keyed dict, TypeError
otherwise. -/
def pySubscriptIdx : PyVal → Nat → Except String PyVal
  | .list xs, i =>
    match xs.get? i with
    | some v => .ok v
    | Option.none => .error "IndexError: list index out of range"
  | .str s, i =>
    if h : i < s.data.length then .ok (.str (String.mk [s.data.get ⟨i, h⟩]))
    else .error "IndexError: string index out of range"
  | .dict _, i => .error ("KeyError: " ++ toString i)
  | .num _, _ => .error "TypeError: int object is not subscriptable"
  | .none, _ => .error "TypeError: NoneType object is not subscriptable"

/-- The pydantic data model `ParaphrasedQuery` of the source: one field
`paraphrased_query`. -/
structure ParaphrasedQuery where
  paraphrased_query : String

/-- Configuration of the `HuggingFaceEndpoint` client built in
`QueryExpander.__init__`. -/
structure HuggingFaceEndpointConfig where
  repo_id : String
  huggingfacehub_api_token : Option String
  task : String
  temperature : Nat

/-- The `query_analyzer` built in `QueryExpander.__init__`:
`self.llm | PydanticToolsParser(tools=[ParaphrasedQuery])`, i.e. the llm
piped into a pydantic tools output stage.  It is built but never used on
the `expand_query` path. -/
structure QueryAnalyzer where
  llm : HuggingFaceEndpointConfig
  tools : List String

/-- One entry of the `formatted_message` list built inside `expand_query`:
a `{"role": ..., "content": ...}` dict. -/
structure ChatMessage where
  role : String
  content : String

/-- The fields of a `QueryExpander` instance as set by `__init__`. -/
structure QueryExpander where
  system_prompt : String
  prompt : List (String × String)
  llm : HuggingFaceEndpointConfig
  query_analyzer : QueryAnalyzer

/-- The system prompt literal of `QueryExpander.__init__`.  The Python
source is a triple-quoted string with backslash line continuations, so the
first three source lines contribute no newline but do contribute the
16-space indentation of their successor lines. -/
def systemPromptText : String :=
  "You are an expert at expanding user questions into multiple variations. " ++
  "                Perform query expansion. If there are multiple common ways of phrasing a user question " ++
  "                or common synonyms for key words in the question, make sure to return multiple versions " ++
  "                of the query with the different phrasings.\n" ++
  "\n" ++
  "                If there are acronyms or words you are not familiar with, do not try to rephrase them.\n" ++
  "\n" ++
  "                Return at least 3 versions of the question that maintain the original intent."

/-- The endpoint client configuration chosen by `__init__`; the api token
is whatever `os.environ.get("HUGGINGFACEHUB_API_TOKEN")` yields, so it is a
parameter here. -/
def hfEndpoint (api_token : Option String) : HuggingFaceEndpointConfig :=
  { repo_id := "HuggingFaceH4/zephyr-7b-beta"
    huggingfacehub_api_token := api_token
    task := "text-generation"
    temperature := 0 }

/-- `QueryExpander.__init__`: system prompt, prompt template, endpoint
client and the (unused) `query_analyzer`. -/
def QueryExpander.init (api_token : Option String) : QueryExpander :=
  { system_prompt := systemPromptText
    prompt := [("system", systemPromptText), ("human", "{question}")]
    llm := hfEndpoint api_token
    query_analyzer := { llm := hfEndpoint api_token, tools := ["ParaphrasedQuery"] } }

/-- The `formatted_message` payload built inside `expand_query`: the system
message followed by the human message carrying the question unchanged. -/
def formatted_message (self : QueryExpander) (question : String) : List ChatMessage :=
  [{ role := "system", content := self.system_prompt },
   { role := "human", content := question }]

/-- The extraction step `variations = [result['choices'][0]['text']]`:
each subscription may raise, and on success the extracted value is wrapped
in a one-element list. -/
def extractVariations (result : PyVal) : Except String (List PyVal) :=
  match pySubscriptKey result "choices" with
  | .error e => .error e
  | .ok choices =>
    match pySubscriptIdx choices 0 with
    | .error e => .error e
    | .ok first =>
      match pySubscriptKey first "text" with
      | .error e => .error e
      | .ok text => .ok [text]

/-- The body of the `try:` block of `expand_query`: invoke the llm on the
formatted payload, then extract; an exception from either step propagates
to the handler. -/
def expandBody (invoke : List ChatMessage → Except String PyVal)
    (self : QueryExpander) (question : String) : Except String (List PyVal) :=
  match invoke (formatted_message self question) with
  | .error e => .error e
  | .ok result => extractVariations result

/-- What one call to `expand_query` produces: the returned list, the lines
it printed, and the payloads it sent to the endpoint (instrumented so that
"exactly one invocation with exactly this payload" is provable). -/
structure ExpandOutput where
  variations : List PyVal
  printed : List String
  calls : List (List ChatMessage)

/-- `QueryExpander.expand_query`: run the try-block; on success return the
extracted singleton, on any exception print the error line and return `[]`.
The instance is returned so that absence of mutation is a theorem. -/
def expand_query (invoke : List ChatMessage → Except String PyVal)
    (self : QueryExpander) (question : String) : ExpandOutput × QueryExpander :=
  match expandBody invoke self question with
  | .ok vs =>
    ({ variations := vs, printed := [], calls := [formatted_message self question] }, self)
  | .error e =>
    ({ variations := [], printed := ["Error expanding query: " ++ e],
       calls := [formatted_message self question] }, self)

mutual

/-- Python `repr` of a value, used by `str` on containers. -/
def pyRepr : PyVal → String
  | .str s => "\x27" ++ s ++ "\x27"
  | .num n => toString n
  | .none => "None"
  | .list xs => "[" ++ pyReprSeq xs ++ "]"
  | .dict es => "\x7b" ++ pyReprEntries es ++ "\x7d"

/-- Comma-separated reprs of list elements. -/
def pyReprSeq : List PyVal → String
  | [] => ""
  | [v] => pyRepr v
  | v :: vs => pyRepr v ++ ", " ++ pyReprSeq vs

/-- Comma-separated reprs of dict entries. -/
def pyReprEntries : List (String × PyVal) → String
  | [] => ""
  | [(k, v)] => "\x27" ++ k ++ "\x27: " ++ pyRepr v
  | (k, v) :: es => "\x27" ++ k ++ "\x27: " ++ pyRepr v ++ ", " ++ pyReprEntries es

end

/-- Python `str` of a value, as used by the f-string printing a variation:
the identity on strings, `repr`-like elsewhere. -/
def pyStr : PyVal → String
  | .str s => s
  | v => pyRepr v

/-- Python `str.strip()` (no argument): drop leading and trailing
whitespace. -/
def pyStrip (s : String) : String :=
  String.mk (List.rdropWhile Char.isWhitespace (s.data.dropWhile Char.isWhitespace))

/-- Python `str.lower()`: lower-case every character. -/
def pyLower (s : String) : String :=
  String.mk (s.data.map Char.toLower)

/-- How the loop terminated: the user typed quit, or an exception escaped
the loop body (the only in-scope source is `input()` raising EOFError once
stdin is exhausted; `expand_query` catches its own). -/
inductive LoopExit where
  | quit
  | exn (msg : String)

/-- What a run of the interactive loop produces: printed lines, the
questions handed to `expand_query` in order, and how the loop ended. -/
structure LoopResult where
  printed : List String
  questions : List String
  exit : LoopExit

/-- The stdout prompt written by `input("\nEnter your question: ")`. -/
def promptLine : String := "\nEnter your question: "

/-- The numbered result lines: `print(f"{i+1}. {variation}")` over
`enumerate(variations)`. -/
def numberVariations (vs : List PyVal) : List String :=
  vs.enum.map (fun p => toString (p.1 + 1) ++ ". " ++ pyStr p.2)

/-- The `while True:` loop of `main`, run against a list of stdin lines:
strip the line; on a case-insensitive `quit` print the farewell and stop;
otherwise call `expand_query` on the stripped question, print the numbered
variations and the count, and continue with the returned instance.  An
empty input list means `input()` raises EOFError. -/
def cliLoop (invoke : List ChatMessage → Except String PyVal) :
    QueryExpander → List String → LoopResult
  | _, [] => { printed := [promptLine], questions := [], exit := .exn "EOF when reading a line" }
  | expander, line :: rest =>
    let question := pyStrip line
    if pyLower question = "quit" then
      { printed := [promptLine, "Thank you!"], questions := [], exit := .quit }
    else
      let step := expand_query invoke expander question
      let r := cliLoop invoke step.2 rest
      { printed :=
          [promptLine, "\nGenerating variations of the questions..."] ++ step.1.printed ++
          ["\nGenerated variations:"] ++ numberVariations step.1.variations ++
          ["Total number of variations created: " ++ toString step.1.variations.length] ++
          r.printed
        questions := question :: r.questions
        exit := r.exit }

/-- The welcome banner printed by `main` before the loop. -/
def bannerLines : List String :=
  ["Welcome to LangChain Query Expander!",
   "Enter a question to see different variations (or \x27quit\x27 to exit)",
   "\nExample questions:",
   "1. \x27What is the weather like today?\x27",
   "2. \x27Can you recommend me a good book to read?\x27",
   "3. \x27How do I make a cup of coffee?\x27"]

/-- `main`: construct the expander (construction may itself raise, so its
outcome is a parameter), print the banner, run the loop; any exception not
caught inside the loop body lands in the top-level handler, which prints
`Error: ...` and the API-key hint and returns normally. -/
def main (construct : Except String QueryExpander)
    (invoke : List ChatMessage → Except String PyVal)
    (inputs : List String) : List String :=
  match construct with
  | .error e => ["Error: " ++ e, "Please check your API key and try again."]
  | .ok expander =>
    let r := cliLoop invoke expander inputs
    match r.exit with
    | .quit => bannerLines ++ r.printed
    | .exn e =>
      bannerLines ++ r.printed ++ ["Error: " ++ e, "Please check your API key and try again."]

/-- Helper: both branches of `expand_query` hand the instance back
unchanged. -/
theorem expand_query_preserves_state (invoke : List ChatMessage → Except String PyVal)
    (self : QueryExpander) (question : String) :
    (expand_query invoke self question).2 = self := by
  unfold expand_query
  split <;> rfl

/-- Helper: a successful try-block always yields a one-element list. -/
theorem expandBody_ok_shape (invoke : List ChatMessage → Except String PyVal)
    (self : QueryExpander) (question : String) (vs : List PyVal)
    (h : expandBody invoke self question = .ok vs) : ∃ t, vs = [t] := by
  unfold expandBody at h
  split at h
  · exact Except.noConfusion h
  · unfold extractVariations at h
    split at h
    · exact Except.noConfusion h
    · split at h
      · exact Except.noConfusion h
      · split at h
        · exact Except.noConfusion h
        · injection h with h4
          exact ⟨_, h4.symm⟩

/-- Helper: unfolding the loop at a quit line. -/
theorem cliLoop_cons_quit (invoke : List ChatMessage → Except String PyVal)
    (expander : QueryExpander) (line : String) (rest : List String)
    (h : pyLower (pyStrip line) = "quit") :
    cliLoop invoke expander (line :: rest) =
      { printed := [promptLine, "Thank you!"], questions := [], exit := LoopExit.quit } := by
  simp only [cliLoop, h, if_true]

/-- Helper: unfolding the loop at a non-quit line; the recursive call runs
on the unchanged instance. -/
theorem cliLoop_cons_go (invoke : List ChatMessage → Except String PyVal)
    (expander : QueryExpander) (line : String) (rest : List String)
    (h : ¬pyLower (pyStrip line) = "quit") :
    cliLoop invoke expander (line :: rest) =
      { printed :=
          [promptLine, "\nGenerating variations of the questions..."] ++
          (expand_query invoke expander (pyStrip line)).1.printed ++
          ["\nGenerated variations:"] ++
          numberVariations (expand_query invoke expander (pyStrip line)).1.variations ++
          ["Total number of variations created: " ++
            toString (expand_query invoke expander (pyStrip line)).1.variations.length] ++
          (cliLoop invoke expander rest).printed
        questions := pyStrip line :: (cliLoop invoke expander rest).questions
        exit := (cliLoop invoke expander rest).exit } := by
  simp only [cliLoop, h, if_false, expand_query_preserves_state]

/-- Helper: dropping leading whitespace is invariant under a later
`rdropWhile` pass, so a second leading pass is the identity. -/
theorem dropWhile_rdropWhile_dropWhile {α : Type} (p : α → Bool) (l : List α) :
    List.dropWhile p (List.rdropWhile p (List.dropWhile p l)) =
      List.rdropWhile p (List.dropWhile p l) := by
  rw [List.dropWhile_eq_self_iff]
  intro hl
  have hpre := List.rdropWhile_prefix p (List.dropWhile p l)
  have hlen : 0 < (List.dropWhile p l).length := lt_of_lt_of_le hl hpre.length_le
  have hget := hpre.getElem hl
  rw [List.get_eq_getElem, hget]
  have hnot := List.dropWhile_get_zero_not p l hlen
  rwa [List.get_eq_getElem] at hnot

/-- Helper: Python `strip` is idempotent. -/
theorem pyStrip_idem (s : String) : pyStrip (pyStrip s) = pyStrip s := by
  unfold pyStrip
  show String.mk (List.rdropWhile Char.isWhitespace (List.dropWhile Char.isWhitespace
      (List.rdropWhile Char.isWhitespace (s.data.dropWhile Char.isWhitespace)))) = _
  rw [dropWhile_rdropWhile_dropWhile, List.rdropWhile_idempotent]

/-- Concrete endpoint stub used by witnesses: always raises. -/
def wInvokeFail : List ChatMessage → Except String PyVal :=
  fun _ => .error "Simulated network error"

/-- Concrete extracted text used by witnesses. -/
def wText : PyVal := .str "How can I brew a coffee?"

/-- Concrete raw response of the expected shape used by witnesses. -/
def wResult : PyVal := .dict [("choices", .list [.dict [("text", wText)]])]

/-- Concrete endpoint stub used by witnesses: always succeeds with
`wResult`. -/
def wInvokeOk : List ChatMessage → Except String PyVal :=
  fun _ => .ok wResult

/-- Concrete expander instance used by witnesses. -/
def wExpander : QueryExpander := QueryExpander.init Option.none

/-- Claim C1: for every question and every endpoint behavior, `expand_query`
returns a list and never propagates an exception; an exception anywhere in
the try-block is converted to the empty list. -/
theorem expand_query_exception_to_empty (invoke : List ChatMessage → Except String PyVal)
    (self : QueryExpander) (question : String) (e : String)
    (h : expandBody invoke self question = .error e) :
    (expand_query invoke self question).1.variations = [] := by
  unfold expand_query
  rw [h]

/-- Witness for claim C1: a raising endpoint stub yields the empty list. -/
theorem expand_query_exception_to_empty_witness :
    (expand_query wInvokeFail wExpander "How do I make a cup of coffee?").1.variations = [] :=
  expand_query_exception_to_empty wInvokeFail wExpander "How do I make a cup of coffee?"
    "Simulated network error" rfl

/-- Claim C2: when the endpoint succeeds and the raw result has a text field at
`result['choices'][0]['text']`, the returned list is exactly that value,
verbatim, as a one-element list. -/
theorem expand_query_success_verbatim (invoke : List ChatMessage → Except String PyVal)
    (self : QueryExpander) (question : String) (result choices first text : PyVal)
    (hr : invoke (formatted_message self question) = .ok result)
    (hc : pySubscriptKey result "choices" = .ok choices)
    (hf : pySubscriptIdx choices 0 = .ok first)
    (ht : pySubscriptKey first "text" = .ok text) :
    (expand_query invoke self question).1.variations = [text] := by
  have hb : expandBody invoke self question = .ok [text] := by
    unfold expandBody extractVariations
    simp only [hr, hc, hf, ht]
  unfold expand_query
  rw [hb]

/-- Witness for claim C2: the spec scenario response yields exactly the extracted
text. -/
theorem expand_query_success_verbatim_witness :
    (expand_query wInvokeOk wExpander "How do I make a cup of coffee?").1.variations = [wText] :=
  expand_query_success_verbatim wInvokeOk wExpander "How do I make a cup of coffee?"
    wResult (.list [.dict [("text", wText)]]) (.dict [("text", wText)]) wText
    rfl rfl rfl rfl

/-- Claim C3: when the invocation or the extraction raises, `expand_query`
prints one line `Error expanding query: <error text>` and returns a list
of length 0. -/
theorem expand_query_failure_prints (invoke : List ChatMessage → Except String PyVal)
    (self : QueryExpander) (question : String) (e : String)
    (h : expandBody invoke self question = .error e) :
    (expand_query invoke self question).1.printed = ["Error expanding query: " ++ e] ∧
    (expand_query invoke self question).1.variations.length = 0 := by
  unfold expand_query
  rw [h]
  exact ⟨rfl, rfl⟩

/-- Witness for claim C3: the simulated network error prints the error line and
yields zero variations. -/
theorem expand_query_failure_prints_witness :
    (expand_query wInvokeFail wExpander "What is the weather like today?").1.printed =
      ["Error expanding query: " ++ "Simulated network error"] ∧
    (expand_query wInvokeFail wExpander "What is the weather like today?").1.variations.length = 0 :=
  expand_query_failure_prints wInvokeFail wExpander "What is the weather like today?"
    "Simulated network error" rfl

/-- Claim C4: the loop stops at a line exactly when its stripped form is a
case-insensitive `quit`, calling nothing further; on any other line
(including the empty one) it hands the question to `expand_query` and
continues with the rest of the input. -/
theorem cliLoop_quit_sentinel (invoke : List ChatMessage → Except String PyVal)
    (expander : QueryExpander) (line : String) (rest : List String) :
    (pyLower (pyStrip line) = "quit" →
      cliLoop invoke expander (line :: rest) =
        { printed := [promptLine, "Thank you!"], questions := [], exit := LoopExit.quit }) ∧
    (pyLower (pyStrip line) ≠ "quit" →
      (cliLoop invoke expander (line :: rest)).questions =
        pyStrip line :: (cliLoop invoke expander rest).questions ∧
      (cliLoop invoke expander (line :: rest)).exit =
        (cliLoop invoke expander rest).exit) := by
  constructor
  · intro h
    exact cliLoop_cons_quit invoke expander line rest h
  · intro h
    rw [cliLoop_cons_go invoke expander line rest h]
    exact ⟨rfl, rfl⟩

/-- Witness for claim C4: `QUIT` terminates; `hello` (and an empty line) trigger an
expansion and continue. -/
theorem cliLoop_quit_sentinel_witness :
    cliLoop wInvokeFail wExpander ["QUIT"] =
      { printed := [promptLine, "Thank you!"], questions := [], exit := LoopExit.quit } ∧
    (cliLoop wInvokeFail wExpander ["hello", "Quit"]).questions =
      "hello" :: (cliLoop wInvokeFail wExpander ["Quit"]).questions ∧
    (cliLoop wInvokeFail wExpander ["", "Quit"]).questions =
      "" :: (cliLoop wInvokeFail wExpander ["Quit"]).questions :=
  ⟨(cliLoop_quit_sentinel wInvokeFail wExpander "QUIT" []).1 (by decide),
   ((cliLoop_quit_sentinel wInvokeFail wExpander "hello" ["Quit"]).2 (by decide)).1,
   ((cliLoop_quit_sentinel wInvokeFail wExpander "" ["Quit"]).2 (by decide)).1⟩

/-- Claim C5: the returned list has at most one element — exactly one when the
try-block succeeds, zero when it raises. -/
theorem expand_query_at_most_one (invoke : List ChatMessage → Except String PyVal)
    (self : QueryExpander) (question : String) :
    (expand_query invoke self question).1.variations.length ≤ 1 ∧
    (∀ vs, expandBody invoke self question = .ok vs →
      (expand_query invoke self question).1.variations.length = 1) ∧
    (∀ e, expandBody invoke self question = .error e →
      (expand_query invoke self question).1.variations.length = 0) := by
  refine ⟨?_, ?_, ?_⟩
  · cases hb : expandBody invoke self question with
    | ok vs =>
      obtain ⟨t, rfl⟩ := expandBody_ok_shape invoke self question vs hb
      unfold expand_query
      rw [hb]
      exact Nat.le.refl
    | error e =>
      unfold expand_query
      rw [hb]
      exact Nat.zero_le 1
  · intro vs hb
    obtain ⟨t, rfl⟩ := expandBody_ok_shape invoke self question vs hb
    unfold expand_query
    rw [hb]
    rfl
  · intro e hb
    unfold expand_query
    rw [hb]
    rfl

/-- Witness for claim C5: the success stub yields length 1, the raising stub length
0. -/
theorem expand_query_at_most_one_witness :
    (expand_query wInvokeOk wExpander "Can you recommend me a good book to read?").1.variations.length = 1 ∧
    (expand_query wInvokeFail wExpander "Can you recommend me a good book to read?").1.variations.length = 0 :=
  ⟨(expand_query_at_most_one wInvokeOk wExpander
      "Can you recommend me a good book to read?").2.1 [wText] rfl,
   (expand_query_at_most_one wInvokeFail wExpander
      "Can you recommend me a good book to read?").2.2 "Simulated network error" rfl⟩

/-- Claim C6: every call issues exactly one endpoint invocation, whose payload
is exactly the system message followed by the human message carrying the
question unchanged. -/
theorem expand_query_single_call_payload (invoke : List ChatMessage → Except String PyVal)
    (self : QueryExpander) (question : String) :
    (expand_query invoke self question).1.calls =
      [[{ role := "system", content := self.system_prompt },
        { role := "human", content := question }]] := by
  unfold expand_query
  split <;> rfl

/-- Helper: the observable part of `expand_query` depends on the instance
only through its `system_prompt` field. -/
theorem expand_query_fst_congr (invoke : List ChatMessage → Except String PyVal)
    (s1 s2 : QueryExpander) (question : String)
    (h : s1.system_prompt = s2.system_prompt) :
    (expand_query invoke s1 question).1 = (expand_query invoke s2 question).1 := by
  have hfm : formatted_message s1 question = formatted_message s2 question := by
    unfold formatted_message
    rw [h]
  have hb : expandBody invoke s1 question = expandBody invoke s2 question := by
    unfold expandBody
    rw [hfm]
  unfold expand_query
  rw [hb, hfm]
  cases expandBody invoke s2 question <;> rfl

/-- Claim C7: `__init__` builds the structured-output pipeline, but the value
returned by `expand_query` is independent of the `query_analyzer` field:
it is derived only from the raw `llm.invoke` result. -/
theorem query_analyzer_unused (invoke : List ChatMessage → Except String PyVal)
    (self : QueryExpander) (qa : QueryAnalyzer) (question : String)
    (api_token : Option String) :
    (expand_query invoke { self with query_analyzer := qa } question).1 =
      (expand_query invoke self question).1 ∧
    (QueryExpander.init api_token).query_analyzer =
      { llm := hfEndpoint api_token, tools := ["ParaphrasedQuery"] } :=
  ⟨expand_query_fst_congr invoke { self with query_analyzer := qa } self question rfl, rfl⟩

/-- Claim C8: an exception not caught inside the loop body — a failing
construction, or the loop raising (EOF) — lands in the top-level handler of
`main`, which prints `Error: ...` plus the API-key hint and returns
normally. -/
theorem main_top_level_handler (construct : Except String QueryExpander)
    (invoke : List ChatMessage → Except String PyVal) (inputs : List String) :
    (∀ e, construct = .error e →
      main construct invoke inputs =
        ["Error: " ++ e, "Please check your API key and try again."]) ∧
    (∀ expander e, construct = .ok expander →
      (cliLoop invoke expander inputs).exit = .exn e →
      main construct invoke inputs =
        bannerLines ++ (cliLoop invoke expander inputs).printed ++
          ["Error: " ++ e, "Please check your API key and try again."]) := by
  constructor
  · intro e he
    subst he
    rfl
  · intro expander e hc hx
    subst hc
    simp only [main, hx]

/-- Witness for claim C8: a failing construction and an exhausted stdin both end in
the handler lines. -/
theorem main_top_level_handler_witness :
    main (Except.error "Missing API token") wInvokeFail ["hi"] =
      ["Error: " ++ "Missing API token", "Please check your API key and try again."] ∧
    main (Except.ok wExpander) wInvokeFail [] =
      bannerLines ++ (cliLoop wInvokeFail wExpander []).printed ++
        ["Error: " ++ "EOF when reading a line", "Please check your API key and try again."] :=
  ⟨(main_top_level_handler (Except.error "Missing API token") wInvokeFail ["hi"]).1
      "Missing API token" rfl,
   (main_top_level_handler (Except.ok wExpander) wInvokeFail []).2
      wExpander "EOF when reading a line" rfl rfl⟩

/-- Claim C9: `expand_query` mutates no field of the instance: the state after
any call is the state before it. -/
theorem expand_query_no_mutation (invoke : List ChatMessage → Except String PyVal)
    (self : QueryExpander) (question : String) :
    (expand_query invoke self question).2 = self := by
  unfold expand_query
  split <;> rfl

/-- Claim C10: the loop strips each input line before the quit check and before
calling `expand_query`: a raw line drives the loop exactly like its
stripped form. -/
theorem cliLoop_strips_input (invoke : List ChatMessage → Except String PyVal)
    (expander : QueryExpander) (line : String) (rest : List String) :
    cliLoop invoke expander (line :: rest) =
      cliLoop invoke expander (pyStrip line :: rest) := by
  by_cases h : pyLower (pyStrip line) = "quit"
  · rw [cliLoop_cons_quit invoke expander line rest h,
      cliLoop_cons_quit invoke expander (pyStrip line) rest (by rw [pyStrip_idem]; exact h)]
  · rw [cliLoop_cons_go invoke expander line rest h,
      cliLoop_cons_go invoke expander (pyStrip line) rest (by rw [pyStrip_idem]; exact h),
      pyStrip_idem]

end QueryExpansion
